import Mathlib

/-!
Verification of the smartatransit/feedback HTTP service core: the
SaveFeedback and Health handlers of package `api` and the data model of
package `db`.  Pure Go functions become Lean functions; the persistence
collaborator's call outcomes (`SaveFeedback`, `TestConnection`,
`GetRecentOutages`) are passed in as explicit `Except` parameters;
`time.Time` is modelled as an integer timestamp; Go pointer-typed
optional fields become `Option`.  Go's `strings.ToLower` is modelled by
`stringsToLower` (ASCII case mapping, which agrees with Go on all ASCII
input, and all enumerated constants are ASCII).
-/

/-- `db.Feedback` (package db): a user feedback record.  Pointer fields
`Message`, `Value`, `Email` become `Option String`; `ReceivedAt` is an
integer timestamp. -/
structure Feedback where
  ID : String
  SessionID : String
  Role : String
  ReceivedAt : Int
  Kind : String
  Silenced : Bool
  Message : Option String
  Value : Option String
  Email : Option String
deriving DecidableEq, Repr

/-- `api.SaveFeedbackRequest`: the decoded JSON request body.  Absent
JSON fields decode to the zero value `""` in Go, so every field is a
plain `String`. -/
structure SaveFeedbackRequest where
  Kind : String
  Value : String
  Message : String
  Email : String
deriving DecidableEq, Repr

/-- Go's `strings.ToLower`: character-wise lower-casing.  (Lean's
`String.toLower` is the same map but is defined by well-founded
recursion on byte positions, which the kernel cannot evaluate; mapping
over the character list is evaluable and extensionally equal.  On the
ASCII strings this service compares against, `Char.toLower` agrees with
Go's Unicode case mapping.) -/
def stringsToLower (s : String) : String :=
  String.mk (s.data.map Char.toLower)

/-- `api.ValidKinds`: the valid feedback kinds (a set, modelled as a
list queried with `contains`). -/
def ValidKinds : List String := ["outage", "comment", "service_condition"]

/-- `api.ValidValues`: the valid sentiment values. -/
def ValidValues : List String := ["positive", "negative", "neutral"]

/-- Character class `[A-Za-z0-9._%+-]` of the local part of
`api.emailRegexp`. -/
def isEmailLocalChar (c : Char) : Bool :=
  c.isAlphanum || c == '.' || c == '_' || c == '%' || c == '+' || c == '-'

/-- Character class `[A-Za-z0-9.-]` of the domain part of
`api.emailRegexp`. -/
def isEmailDomainChar (c : Char) : Bool :=
  c.isAlphanum || c == '.' || c == '-'

/-- `api.emailRegexp.Match`: executable semantics of the anchored pattern
`^[A-Za-z0-9._%+-]+@[A-Za-z0-9.-]+\.[A-Za-z]{2,}$`.  Since no character
class contains `@`, a matching string has exactly one `@`; since the
final `[A-Za-z]{2,}` group contains no dot, the dot that precedes it in
any successful parse is the last dot after the `@`.  The matcher below
decomposes the string accordingly, which is equivalent to the regex's
existential semantics. -/
def emailRegexpMatch (s : String) : Bool :=
  let cs := s.toList
  (cs.count '@' == 1) &&
  (let locPart := cs.takeWhile (fun c => c != '@')
   let rest := cs.drop (locPart.length + 1)
   (!locPart.isEmpty) && locPart.all isEmailLocalChar &&
   (let tld := (rest.reverse.takeWhile (fun c => c != '.')).reverse
    let dom := rest.take (rest.length - tld.length - 1)
    decide (tld.length < rest.length) && (!dom.isEmpty) &&
    dom.all isEmailDomainChar &&
    decide (2 ≤ tld.length) && tld.all Char.isAlpha))

/-- `api.mapSaveFeedbackRequestFieldsOntoFeedback`: lower-cases `kind`
and `value`, validates `kind` against `ValidKinds`, the (lowered)
`value` against `ValidValues` when non-empty, the (original) `email`
against `emailRegexp` when non-empty, and copies the validated fields —
and the `message` verbatim when non-empty — onto the feedback record.
Go's early `return err` becomes `Except.error`; the sequential
mutations of `feedback` become successive `let` rebindings. -/
def mapSaveFeedbackRequestFieldsOntoFeedback (feedback : Feedback)
    (req : SaveFeedbackRequest) : Except String Feedback :=
  let kind := stringsToLower req.Kind
  let value := stringsToLower req.Value
  if ¬ ValidKinds.contains kind then
    Except.error ("invalid value `" ++ kind ++ "` for `kind`")
  else
    let feedback := { feedback with Kind := kind }
    if value ≠ "" ∧ ¬ ValidValues.contains value then
      Except.error ("invalid value `" ++ value ++ "` for `value`")
    else
      let feedback :=
        if value ≠ "" then { feedback with Value := some value } else feedback
      if req.Email ≠ "" ∧ ¬ emailRegexpMatch req.Email then
        Except.error ("invalid value `" ++ req.Email ++ "` for `email`")
      else
        let feedback :=
          if req.Email ≠ "" then { feedback with Email := some req.Email } else feedback
        let feedback :=
          if req.Message ≠ "" then { feedback with Message := some req.Message } else feedback
        Except.ok feedback

/-- `api.errResp`: the JSON body of every error response. -/
structure ErrResp where
  Status : Nat
  Message : String
deriving DecidableEq, Repr

/-- `api.outageReport`: one entry of the health metadata. -/
structure OutageReport where
  ID : String
  Message : Option String
  ReceivedAt : Int
deriving DecidableEq, Repr

/-- `api.outageReportMetadata`: the metadata attached to the
`user_outage_reports` status. -/
structure OutageReportMetadata where
  Outages : List OutageReport
deriving DecidableEq, Repr

/-- `api.Status`: a single system status.  The Go `Metadata` field is an
empty interface, but the only value ever stored in it is an
`outageReportMetadata`, and `omitempty` drops it when nil, so it is
modelled as `Option OutageReportMetadata`. -/
structure Status where
  Name : String
  Description : String
  Healthy : Bool
  Metadata : Option OutageReportMetadata
deriving DecidableEq, Repr

/-- `api.HealthResponse`. -/
structure HealthResponse where
  Statuses : List Status
deriving DecidableEq, Repr

/-- The JSON body written on a response: nothing (success path of
SaveFeedback), an `errResp`, or a `HealthResponse`. -/
inductive ResponseBody where
  | empty : ResponseBody
  | err : ErrResp → ResponseBody
  | health : HealthResponse → ResponseBody
deriving DecidableEq, Repr

/-- An HTTP response as observed by the client: the status code written
by `WriteHeader` (200 when the handler returns without writing one) and
the encoded body. -/
structure Response where
  status : Nat
  body : ResponseBody
deriving DecidableEq, Repr

/-- An inbound HTTP request as the handlers consume it: the method, the
values of the two `X-Smarta-Auth-*` headers (Go's `Header.Get` returns
`""` for an absent header, and the code only ever compares the length
with zero — so absent and empty coincide), and the outcome of JSON-
decoding the body. -/
structure Request where
  method : String
  session : String
  role : String
  body : Except String SaveFeedbackRequest
deriving Repr

/-- `api.Client.writeErrorResponse`: writes `status` and the JSON body
with the same numeric status and the message. -/
def writeErrorResponse (status : Nat) (errMsg : String) : Response :=
  { status := status, body := ResponseBody.err { Status := status, Message := errMsg } }

/-- `api.Client.SaveFeedback`: method check, auth-header check, body
decode, field mapping, then the persistence save.  `saveResult` is the
outcome of `c.db.SaveFeedback`; the second component of the result is
the record passed to that call (`none` when it is never invoked).  The
Go success path returns without writing, which the HTTP layer turns
into an empty 200. -/
def SaveFeedback (r : Request) (saveResult : Except String Unit) :
    Response × Option Feedback :=
  if r.method ≠ "POST" then
    (writeErrorResponse 405 "use POST instead", none)
  else if r.session.length = 0 ∨ r.role.length = 0 then
    (writeErrorResponse 401 "expected X-Smarta-Auth-* headers not present", none)
  else
    match r.body with
    | Except.error e =>
        (writeErrorResponse 400 ("malformed JSON request body: " ++ e), none)
    | Except.ok req =>
        let feedback : Feedback :=
          { ID := "", SessionID := r.session, Role := r.role, ReceivedAt := 0,
            Kind := "", Silenced := false, Message := none, Value := none, Email := none }
        match mapSaveFeedbackRequestFieldsOntoFeedback feedback req with
        | Except.error e => (writeErrorResponse 400 e, none)
        | Except.ok fb =>
            match saveResult with
            | Except.error _ => (writeErrorResponse 500 "failed to save feedback", some fb)
            | Except.ok _ => ({ status := 200, body := ResponseBody.empty }, some fb)

/-- `api.reportStatusFromFeedbackList`: the `user_outage_reports`
status.  Healthy exactly when the list is empty; otherwise the metadata
carries one `outageReport` per source record, built by the range loop —
i.e. `List.map` — in the collaborator's order. -/
def reportStatusFromFeedbackList (outageReports : List Feedback) : Status :=
  if outageReports.length = 0 then
    { Name := "user_outage_reports",
      Description := "outage reports directly from users",
      Healthy := true, Metadata := none }
  else
    { Name := "user_outage_reports",
      Description := "outage reports directly from users",
      Healthy := false,
      Metadata := some { Outages := outageReports.map (fun rep =>
        { ID := rep.ID, Message := rep.Message, ReceivedAt := rep.ReceivedAt }) } }

/-- `api.Client.Health`: `connResult` is the outcome of
`c.db.TestConnection` and `outagesResult` the outcome of
`c.db.GetRecentOutages`.  The Go deferred block appends the degraded
`database` entry when `statuses` is still empty and always writes 200;
the `let` chain below is that defer made linear.  (One source revision
omits the `TestConnection` call; its behaviour is this function at
`connResult = Except.ok ()`.) -/
def Health (connResult : Except String Unit)
    (outagesResult : Except String (List Feedback)) : Response :=
  let statuses : List Status :=
    match connResult with
    | Except.error _ => []
    | Except.ok _ =>
      match outagesResult with
      | Except.error _ => []
      | Except.ok reports =>
        [{ Name := "database", Description := "postgres backend",
           Healthy := true, Metadata := none },
         reportStatusFromFeedbackList reports]
  let statuses :=
    if statuses.length = 0 then
      statuses ++ [{ Name := "database", Description := "postgres backend",
                     Healthy := false, Metadata := none }]
    else statuses
  { status := 200, body := ResponseBody.health { Statuses := statuses } }

/-- A Go string has length zero exactly when it is the empty string
(`len(s) == 0` versus `s == ""`). -/
theorem string_length_eq_zero_iff (s : String) : s.length = 0 ↔ s = "" := by
  cases s with
  | mk data => cases data <;> simp [String.length, String.ext_iff]

/-- Lower-casing preserves emptiness: `strings.ToLower` maps characters
one-for-one. -/
theorem stringsToLower_eq_empty_iff (s : String) :
    stringsToLower s = "" ↔ s = "" := by
  cases s with
  | mk data => cases data <;> simp [stringsToLower, String.ext_iff]

/-- C1: for a POST SaveFeedback request with non-empty session and role
headers and body `kind="outAGE"`, `value="POSitive"`,
`message="my message"`, `email="user@notsmarta.net"`, the record passed
to the persistence save operation has `kind="outage"` and
`value="positive"` (case-normalized to lowercase exactly), the message
and email verbatim, and session/role copied verbatim from the
headers. -/
theorem saveFeedback_normalizes_case (session role : String)
    (hs : session ≠ "") (hr : role ≠ "") (saveResult : Except String Unit) :
    (SaveFeedback
      { method := "POST", session := session, role := role,
        body := Except.ok
          { Kind := "outAGE", Value := "POSitive",
            Message := "my message", Email := "user@notsmarta.net" } }
      saveResult).snd =
    some { ID := "", SessionID := session, Role := role, ReceivedAt := 0,
           Kind := "outage", Silenced := false, Message := some "my message",
           Value := some "positive", Email := some "user@notsmarta.net" } := by
  have hs' : session.length ≠ 0 := fun h => hs ((string_length_eq_zero_iff session).mp h)
  have hr' : role.length ≠ 0 := fun h => hr ((string_length_eq_zero_iff role).mp h)
  unfold SaveFeedback
  rw [if_neg (by simp), if_neg (by simp [hs', hr'])]
  cases saveResult <;> rfl

/-- C1 witness: the concrete headers used by the repository's own test
suite. -/
theorem saveFeedback_normalizes_case_witness :
    (SaveFeedback
      { method := "POST", session := "r39iefjd0q39f", role := "anonymous",
        body := Except.ok
          { Kind := "outAGE", Value := "POSitive",
            Message := "my message", Email := "user@notsmarta.net" } }
      (Except.ok ())).snd =
    some { ID := "", SessionID := "r39iefjd0q39f", Role := "anonymous", ReceivedAt := 0,
           Kind := "outage", Silenced := false, Message := some "my message",
           Value := some "positive", Email := some "user@notsmarta.net" } :=
  saveFeedback_normalizes_case "r39iefjd0q39f" "anonymous"
    (by decide) (by decide) (Except.ok ())

/-- C2: when the connectivity test and the recent-outages query both
succeed, Health responds with exactly two status entries: first
`database` healthy, second `user_outage_reports` — healthy with no
metadata when the outage list is empty, and unhealthy with
`metadata.outages` carrying one `(id, message, received_at)` entry per
source record, in the collaborator's order, when it is non-empty. -/
theorem health_success_two_statuses (reports : List Feedback) :
    Health (Except.ok ()) (Except.ok reports) =
    { status := 200,
      body := ResponseBody.health { Statuses := [
        { Name := "database", Description := "postgres backend",
          Healthy := true, Metadata := none },
        { Name := "user_outage_reports",
          Description := "outage reports directly from users",
          Healthy := reports.isEmpty,
          Metadata :=
            if reports.isEmpty then none
            else some { Outages := reports.map (fun rep =>
              { ID := rep.ID, Message := rep.Message,
                ReceivedAt := rep.ReceivedAt }) } } ] } } := by
  cases reports <;> rfl

/-- C3: when the connectivity test fails — and likewise when it succeeds
but the recent-outages query fails — the Health body holds exactly one
status entry, `database`/`postgres backend`/unhealthy, with no metadata
and no other entries. -/
theorem health_degraded_single_entry (e1 e2 : String)
    (outagesResult : Except String (List Feedback)) :
    Health (Except.error e1) outagesResult =
      { status := 200,
        body := ResponseBody.health { Statuses := [
          { Name := "database", Description := "postgres backend",
            Healthy := false, Metadata := none } ] } } ∧
    Health (Except.ok ()) (Except.error e2) =
      { status := 200,
        body := ResponseBody.health { Statuses := [
          { Name := "database", Description := "postgres backend",
            Healthy := false, Metadata := none } ] } } :=
  ⟨rfl, rfl⟩

/-- C4: the Health handler writes HTTP status 200 for every outcome of
the persistence collaborator's operations; no branch produces any other
status. -/
theorem health_always_200 (connResult : Except String Unit)
    (outagesResult : Except String (List Feedback)) :
    (Health connResult outagesResult).status = 200 := rfl

/-- C5: two runs of SaveFeedback on the same request in which the
persistence save fails with different error values produce identical
responses, and whenever the save was actually invoked and failed the
response is the fixed 500 "failed to save feedback" — nothing of the
underlying error text leaks. -/
theorem saveFeedback_save_error_fixed (r : Request) (e1 e2 : String) :
    SaveFeedback r (Except.error e1) = SaveFeedback r (Except.error e2) ∧
    ((SaveFeedback r (Except.error e1)).snd ≠ none →
      (SaveFeedback r (Except.error e1)).fst =
        writeErrorResponse 500 "failed to save feedback") := by
  obtain ⟨m, s, ro, b⟩ := r
  by_cases hm : m = "POST"
  · by_cases hh : s.length = 0 ∨ ro.length = 0
    · exact ⟨by simp [SaveFeedback, hm, hh],
             by intro h; simp [SaveFeedback, hm, hh] at h⟩
    · cases b with
      | error e =>
        exact ⟨by simp [SaveFeedback, hm, hh],
               by intro h; simp [SaveFeedback, hm, hh] at h⟩
      | ok req =>
        cases hmap : mapSaveFeedbackRequestFieldsOntoFeedback
            { ID := "", SessionID := s, Role := ro, ReceivedAt := 0, Kind := "",
              Silenced := false, Message := none, Value := none, Email := none } req with
        | error e =>
          exact ⟨by simp [SaveFeedback, hm, hh, hmap],
                 by intro h; simp [SaveFeedback, hm, hh, hmap] at h⟩
        | ok fb =>
          exact ⟨by simp [SaveFeedback, hm, hh, hmap],
                 by intro h; simp [SaveFeedback, hm, hh, hmap]⟩
  · exact ⟨by simp [SaveFeedback, hm], by intro h; simp [SaveFeedback, hm] at h⟩

/-- C5 witness: a valid request whose save fails with a concrete
driver error is answered with the fixed 500 message. -/
theorem saveFeedback_save_error_fixed_witness :
    (SaveFeedback
      { method := "POST", session := "s", role := "r",
        body := Except.ok { Kind := "outage", Value := "", Message := "", Email := "" } }
      (Except.error "pq: insert failed")).fst =
      writeErrorResponse 500 "failed to save feedback" :=
  (saveFeedback_save_error_fixed
    { method := "POST", session := "s", role := "r",
      body := Except.ok { Kind := "outage", Value := "", Message := "", Email := "" } }
    "pq: insert failed" "pq: disk full").2 (by decide)

/-- C6: given a valid kind, a value that is absent or valid, and an
email that is absent or valid, the mapper always succeeds — the message
field is never a cause of rejection — and the constructed record
carries an empty message as absent and a non-empty message exactly as
supplied, with no validation or transformation. -/
theorem mapper_message_not_validated (fb : Feedback) (req : SaveFeedbackRequest)
    (hk : ValidKinds.contains (stringsToLower req.Kind) = true)
    (hv : stringsToLower req.Value = "" ∨
      ValidValues.contains (stringsToLower req.Value) = true)
    (he : req.Email = "" ∨ emailRegexpMatch req.Email = true) :
    ∃ out, mapSaveFeedbackRequestFieldsOntoFeedback fb req = Except.ok out ∧
      out.Message = (if req.Message = "" then fb.Message else some req.Message) := by
  have h1 : ¬ ¬ (ValidKinds.contains (stringsToLower req.Kind) = true) :=
    fun hn => hn hk
  have h2 : ¬ (stringsToLower req.Value ≠ "" ∧
      ¬ (ValidValues.contains (stringsToLower req.Value) = true)) := by
    rcases hv with h | h
    · exact fun hc => hc.1 h
    · exact fun hc => hc.2 h
  have h3 : ¬ (req.Email ≠ "" ∧ ¬ (emailRegexpMatch req.Email = true)) := by
    rcases he with h | h
    · exact fun hc => hc.1 h
    · exact fun hc => hc.2 h
  unfold mapSaveFeedbackRequestFieldsOntoFeedback
  rw [if_neg h1, if_neg h2, if_neg h3]
  refine ⟨_, rfl, ?_⟩
  by_cases hmsg : req.Message = "" <;>
    simp [hmsg, apply_ite Feedback.Message]

/-- C6 witness. -/
theorem mapper_message_not_validated_witness :
    ∃ out, mapSaveFeedbackRequestFieldsOntoFeedback
      { ID := "", SessionID := "s", Role := "r", ReceivedAt := 0, Kind := "",
        Silenced := false, Message := none, Value := none, Email := none }
      { Kind := "OUTAGE", Value := "", Message := "hello", Email := "" } =
      Except.ok out ∧
    out.Message =
      (if ("hello" : String) = ""
       then ({ ID := "", SessionID := "s", Role := "r", ReceivedAt := 0, Kind := "",
               Silenced := false, Message := none, Value := none,
               Email := none } : Feedback).Message
       else some "hello") :=
  mapper_message_not_validated _ _ (by decide) (Or.inl rfl) (Or.inl rfl)

/-- C7 counterexample: a value consisting only of whitespace is NOT
treated as not supplied — the code performs no trimming, so `" "` is
case-normalized to `" "`, fails the sentiment check, and the request is
rejected with the InvalidField error naming `value`, contrary to the
claim. -/
theorem mapper_whitespace_value_rejected :
    mapSaveFeedbackRequestFieldsOntoFeedback
      { ID := "", SessionID := "s", Role := "r", ReceivedAt := 0, Kind := "",
        Silenced := false, Message := none, Value := none, Email := none }
      { Kind := "outage", Value := " ", Message := "my message", Email := "" } =
      Except.error "invalid value ` ` for `value`" := rfl

/-- C7 amended: only the exactly-empty value is treated as not supplied
(no whitespace trimming); every non-empty value — whitespace-only
included — is case-normalized and rejected with the InvalidField error
naming `value` when its normalization is not one of positive, negative,
neutral, and stored lower-cased when it is. -/
theorem mapper_value_no_trimming (fb : Feedback) (req : SaveFeedbackRequest)
    (hk : ValidKinds.contains (stringsToLower req.Kind) = true) :
    (req.Value ≠ "" → ValidValues.contains (stringsToLower req.Value) = false →
      mapSaveFeedbackRequestFieldsOntoFeedback fb req =
        Except.error ("invalid value `" ++ stringsToLower req.Value ++ "` for `value`")) ∧
    (req.Value = "" →
      ∀ out, mapSaveFeedbackRequestFieldsOntoFeedback fb req = Except.ok out →
        out.Value = fb.Value) ∧
    (req.Value ≠ "" → ValidValues.contains (stringsToLower req.Value) = true →
      ∀ out, mapSaveFeedbackRequestFieldsOntoFeedback fb req = Except.ok out →
        out.Value = some (stringsToLower req.Value)) := by
  have h1 : ¬ ¬ (ValidKinds.contains (stringsToLower req.Kind) = true) :=
    fun hn => hn hk
  refine ⟨?_, ?_, ?_⟩
  · intro hne hf
    have hlne : stringsToLower req.Value ≠ "" :=
      fun h => hne ((stringsToLower_eq_empty_iff req.Value).mp h)
    unfold mapSaveFeedbackRequestFieldsOntoFeedback
    rw [if_neg h1,
      if_pos ⟨hlne, fun hcc => Bool.false_ne_true (hf ▸ hcc)⟩]
  · intro h0 out hout
    have hl0 : stringsToLower req.Value = "" :=
      (stringsToLower_eq_empty_iff req.Value).mpr h0
    unfold mapSaveFeedbackRequestFieldsOntoFeedback at hout
    rw [if_neg h1, hl0] at hout
    simp only [ne_eq, not_true_eq_false, false_and, if_false, not_false_eq_true,
      if_neg] at hout
    simp at hout
    split at hout
    · exact Except.noConfusion hout
    · injection hout with h
      subst h
      by_cases hem : req.Email = "" <;> by_cases hmm : req.Message = "" <;>
        simp [hem, hmm]
  · intro hne hvv out hout
    have hlne : stringsToLower req.Value ≠ "" :=
      fun h => hne ((stringsToLower_eq_empty_iff req.Value).mp h)
    unfold mapSaveFeedbackRequestFieldsOntoFeedback at hout
    rw [if_neg h1] at hout
    simp only [hvv, hlne, ne_eq, not_false_eq_true, not_true_eq_false,
      and_false, if_false, if_true] at hout
    simp [hlne] at hout
    split at hout
    · exact Except.noConfusion hout
    · injection hout with h
      subst h
      by_cases hem : req.Email = "" <;> by_cases hmm : req.Message = "" <;>
        simp [hem, hmm, hlne]

/-- C7 witness: an invalid non-empty value is rejected naming `value`. -/
theorem mapper_value_no_trimming_witness :
    mapSaveFeedbackRequestFieldsOntoFeedback
      { ID := "", SessionID := "s", Role := "r", ReceivedAt := 0, Kind := "",
        Silenced := false, Message := none, Value := none, Email := none }
      { Kind := "outage", Value := "BOGUS", Message := "", Email := "" } =
      Except.error ("invalid value `" ++ stringsToLower "BOGUS" ++ "` for `value`") :=
  (mapper_value_no_trimming _
    { Kind := "outage", Value := "BOGUS", Message := "", Email := "" }
    (by decide)).1 (by decide) (by decide)

/-- C8: the validation rules are applied in the fixed order — auth
headers, body parse, kind, value, email — and the first failing rule
determines the rejection.  Each conjunct constrains only the earlier
rules and the failing one, leaving every later field arbitrary, so a
request violating several rules receives exactly the earliest rule's
rejection. -/
theorem saveFeedback_first_failure_wins (r : Request) (saveResult : Except String Unit)
    (hm : r.method = "POST") :
    ((r.session = "" ∨ r.role = "") →
      (SaveFeedback r saveResult).fst =
        writeErrorResponse 401 "expected X-Smarta-Auth-* headers not present") ∧
    (r.session ≠ "" → r.role ≠ "" →
      ∀ e, r.body = Except.error e →
        (SaveFeedback r saveResult).fst =
          writeErrorResponse 400 ("malformed JSON request body: " ++ e)) ∧
    (r.session ≠ "" → r.role ≠ "" →
      ∀ req, r.body = Except.ok req →
        ValidKinds.contains (stringsToLower req.Kind) = false →
        (SaveFeedback r saveResult).fst =
          writeErrorResponse 400
            ("invalid value `" ++ stringsToLower req.Kind ++ "` for `kind`")) ∧
    (r.session ≠ "" → r.role ≠ "" →
      ∀ req, r.body = Except.ok req →
        ValidKinds.contains (stringsToLower req.Kind) = true →
        req.Value ≠ "" → ValidValues.contains (stringsToLower req.Value) = false →
        (SaveFeedback r saveResult).fst =
          writeErrorResponse 400
            ("invalid value `" ++ stringsToLower req.Value ++ "` for `value`")) ∧
    (r.session ≠ "" → r.role ≠ "" →
      ∀ req, r.body = Except.ok req →
        ValidKinds.contains (stringsToLower req.Kind) = true →
        (req.Value = "" ∨ ValidValues.contains (stringsToLower req.Value) = true) →
        req.Email ≠ "" → emailRegexpMatch req.Email = false →
        (SaveFeedback r saveResult).fst =
          writeErrorResponse 400
            ("invalid value `" ++ req.Email ++ "` for `email`")) := by
  obtain ⟨m, s, ro, b⟩ := r
  subst hm
  refine ⟨?_, ?_, ?_, ?_, ?_⟩
  · intro h
    have hlen : s.length = 0 ∨ ro.length = 0 := by
      rcases h with h | h <;>
        [exact Or.inl ((string_length_eq_zero_iff s).mpr h);
         exact Or.inr ((string_length_eq_zero_iff ro).mpr h)]
    simp [SaveFeedback, hlen]
  · intro hs hr e hb
    have hlen : ¬ (s.length = 0 ∨ ro.length = 0) := by
      rw [string_length_eq_zero_iff, string_length_eq_zero_iff]
      exact fun hc => hc.elim hs hr
    subst hb
    simp [SaveFeedback, hlen]
  · intro hs hr req hb hkf
    have hlen : ¬ (s.length = 0 ∨ ro.length = 0) := by
      rw [string_length_eq_zero_iff, string_length_eq_zero_iff]
      exact fun hc => hc.elim hs hr
    subst hb
    have hmap : mapSaveFeedbackRequestFieldsOntoFeedback
        { ID := "", SessionID := s, Role := ro, ReceivedAt := 0, Kind := "",
          Silenced := false, Message := none, Value := none, Email := none } req =
        Except.error ("invalid value `" ++ stringsToLower req.Kind ++ "` for `kind`") := by
      unfold mapSaveFeedbackRequestFieldsOntoFeedback
      rw [if_pos (fun hcc => Bool.false_ne_true (hkf ▸ hcc))]
    simp [SaveFeedback, hlen, hmap]
  · intro hs hr req hb hkt hvne hvf
    have hlen : ¬ (s.length = 0 ∨ ro.length = 0) := by
      rw [string_length_eq_zero_iff, string_length_eq_zero_iff]
      exact fun hc => hc.elim hs hr
    subst hb
    have hlne : stringsToLower req.Value ≠ "" :=
      fun h => hvne ((stringsToLower_eq_empty_iff req.Value).mp h)
    have hmap : mapSaveFeedbackRequestFieldsOntoFeedback
        { ID := "", SessionID := s, Role := ro, ReceivedAt := 0, Kind := "",
          Silenced := false, Message := none, Value := none, Email := none } req =
        Except.error ("invalid value `" ++ stringsToLower req.Value ++ "` for `value`") := by
      unfold mapSaveFeedbackRequestFieldsOntoFeedback
      rw [if_neg (fun hn => hn hkt),
        if_pos ⟨hlne, fun hcc => Bool.false_ne_true (hvf ▸ hcc)⟩]
    simp [SaveFeedback, hlen, hmap]
  · intro hs hr req hb hkt hv hene hef
    have hlen : ¬ (s.length = 0 ∨ ro.length = 0) := by
      rw [string_length_eq_zero_iff, string_length_eq_zero_iff]
      exact fun hc => hc.elim hs hr
    subst hb
    have h1 : ¬ ¬ (ValidKinds.contains (stringsToLower req.Kind) = true) :=
      fun hn => hn hkt
    have h2 : ¬ (stringsToLower req.Value ≠ "" ∧
        ¬ (ValidValues.contains (stringsToLower req.Value) = true)) := by
      rcases hv with h | h
      · exact fun hc => hc.1 ((stringsToLower_eq_empty_iff req.Value).mpr h)
      · exact fun hc => hc.2 h
    have hmap : mapSaveFeedbackRequestFieldsOntoFeedback
        { ID := "", SessionID := s, Role := ro, ReceivedAt := 0, Kind := "",
          Silenced := false, Message := none, Value := none, Email := none } req =
        Except.error ("invalid value `" ++ req.Email ++ "` for `email`") := by
      unfold mapSaveFeedbackRequestFieldsOntoFeedback
      rw [if_neg h1, if_neg h2,
        if_pos ⟨hene, fun hcc => Bool.false_ne_true (hef ▸ hcc)⟩]
    simp [SaveFeedback, hlen, hmap]

/-- C8 witness: a request that violates both the auth-header rule and
the kind rule receives the earlier rule's 401 rejection. -/
theorem saveFeedback_first_failure_wins_witness :
    (SaveFeedback
      { method := "POST", session := "", role := "anonymous",
        body := Except.ok { Kind := "sdf", Value := "", Message := "", Email := "" } }
      (Except.ok ())).fst =
      writeErrorResponse 401 "expected X-Smarta-Auth-* headers not present" :=
  (saveFeedback_first_failure_wins
    { method := "POST", session := "", role := "anonymous",
      body := Except.ok { Kind := "sdf", Value := "", Message := "", Email := "" } }
    (Except.ok ()) rfl).1 (Or.inl rfl)

/-- C9 counterexample: a non-POST request with both auth headers missing
is answered 405, not 401 — the method check runs before the header
check, so the claim's unrestricted quantification over requests
fails. -/
theorem saveFeedback_get_missing_headers_405 :
    (SaveFeedback
      { method := "GET", session := "", role := "", body := Except.error "EOF" }
      (Except.ok ())).fst.status = 405 ∧ (405 : Nat) ≠ 401 := by decide

/-- C9 amended: for every POST request in which the session header or
the role header is missing or empty, the handler responds 401 and the
persistence save operation is never invoked. -/
theorem saveFeedback_post_missing_headers_401 (r : Request)
    (saveResult : Except String Unit) (hm : r.method = "POST")
    (h : r.session = "" ∨ r.role = "") :
    SaveFeedback r saveResult =
      (writeErrorResponse 401 "expected X-Smarta-Auth-* headers not present", none) := by
  obtain ⟨m, s, ro, b⟩ := r
  subst hm
  have hlen : s.length = 0 ∨ ro.length = 0 := by
    rcases h with h | h <;>
      [exact Or.inl ((string_length_eq_zero_iff s).mpr h);
       exact Or.inr ((string_length_eq_zero_iff ro).mpr h)]
  simp [SaveFeedback, hlen]

/-- C9 witness. -/
theorem saveFeedback_post_missing_headers_401_witness :
    SaveFeedback
      { method := "POST", session := "", role := "anonymous",
        body := Except.error "EOF" } (Except.ok ()) =
      (writeErrorResponse 401 "expected X-Smarta-Auth-* headers not present", none) :=
  saveFeedback_post_missing_headers_401
    { method := "POST", session := "", role := "anonymous",
      body := Except.error "EOF" } (Except.ok ()) rfl (Or.inl rfl)

/-- C10: every response of either handler is either the empty 200
success, or an error response whose JSON body carries a `status` field
numerically equal to the HTTP status written (405, 401, 400 or 500)
together with the rejection message; the Health handler always writes a
health body with status 200 and never an error body. -/
theorem handlers_error_body_echoes_status (r : Request)
    (saveResult : Except String Unit) (connResult : Except String Unit)
    (outagesResult : Except String (List Feedback)) :
    ((SaveFeedback r saveResult).fst =
        { status := 200, body := ResponseBody.empty } ∨
      ∃ st msg, (SaveFeedback r saveResult).fst =
          { status := st, body := ResponseBody.err { Status := st, Message := msg } } ∧
        (st = 405 ∨ st = 401 ∨ st = 400 ∨ st = 500)) ∧
    (∃ hb, Health connResult outagesResult =
      { status := 200, body := ResponseBody.health hb }) := by
  constructor
  · obtain ⟨m, s, ro, b⟩ := r
    by_cases hm : m = "POST"
    · by_cases hh : s.length = 0 ∨ ro.length = 0
      · exact Or.inr ⟨401, "expected X-Smarta-Auth-* headers not present",
          by simp [SaveFeedback, hm, hh, writeErrorResponse],
          Or.inr (Or.inl rfl)⟩
      · cases b with
        | error e =>
          exact Or.inr ⟨400, "malformed JSON request body: " ++ e,
            by simp [SaveFeedback, hm, hh, writeErrorResponse],
            Or.inr (Or.inr (Or.inl rfl))⟩
        | ok req =>
          cases hmap : mapSaveFeedbackRequestFieldsOntoFeedback
              { ID := "", SessionID := s, Role := ro, ReceivedAt := 0, Kind := "",
                Silenced := false, Message := none, Value := none, Email := none }
              req with
          | error e =>
            exact Or.inr ⟨400, e,
              by simp [SaveFeedback, hm, hh, hmap, writeErrorResponse],
              Or.inr (Or.inr (Or.inl rfl))⟩
          | ok fb =>
            cases saveResult with
            | error e =>
              exact Or.inr ⟨500, "failed to save feedback",
                by simp [SaveFeedback, hm, hh, hmap, writeErrorResponse],
                Or.inr (Or.inr (Or.inr rfl))⟩
            | ok u => exact Or.inl (by simp [SaveFeedback, hm, hh, hmap])
    · exact Or.inr ⟨405, "use POST instead",
        by simp [SaveFeedback, hm, writeErrorResponse], Or.inl rfl⟩
  · exact ⟨_, rfl⟩
